import Mathlib

/-!
# Verification of the VTS testability checker and fuzzer binder proxy

Shallow embedding of `utils/native/testability_checker/VtsTestabilityChecker.h`
(the compatibility decision engine; its method bodies are not part of the
provided sources, so they are modelled from the specification, faithful to its
wording) and of `sysfuzzer/common/binder/VtsFuzzerBinderService.cpp`
(the reply-parcel handling of the `BpVtsFuzzer` proxy methods).
-/

namespace VtsSpec

/-- A HAL interface version: a (major, minor) pair
(`android::vintf::Version`). -/
structure Version where
  majorVer : Nat
  minorVer : Nat
deriving DecidableEq, Repr

/-- Modelled from the spec: architecture bitness, an enumeration of
{32-bit, 64-bit, both} (`android::vintf::Arch`). -/
inductive Arch where
  | arch32
  | arch64
  | archBoth
deriving DecidableEq, Repr

/-- Modelled from the spec: transport mode of a capability entry,
{binderized, passthrough}. -/
inductive Transport where
  | binderized
  | passthrough
deriving DecidableEq, Repr

/-- An entry of the framework compatibility matrix (`MatrixHal`): package
name, a version range given by its minimum version (same major, minor at
least the minimum minor), an interface name, an optional flag, and a set of
declared instance names. -/
structure RequirementEntry where
  package : String
  minVersion : Version
  interfaceName : String
  optionalFlag : Bool
  instances : Finset String
deriving DecidableEq

/-- An entry of a HAL manifest (`ManifestHal`): package name, a single
concrete version, a transport mode, the set of supported interface names,
the declared instance names, and (meaningful when passthrough) the supported
architecture bitness. -/
structure CapabilityEntry where
  package : String
  version : Version
  transport : Transport
  interfaces : Finset String
  instances : Finset String
  arch : Arch
deriving DecidableEq

/-- Modelled from the spec: version compatibility — a declared version
satisfies a required minimum version iff the major numbers are equal and the
declared minor is at least the required minor. -/
def versionCompatible (declared required : Version) : Bool :=
  declared.majorVer == required.majorVer && required.minorVer ≤ declared.minorVer

/-- Modelled from the spec: bitness compatibility between a declared
architecture and a requested one — an implementation declared "both"
satisfies either request; a 32-bit-only (resp. 64-bit-only) implementation
satisfies exactly the 32-bit (resp. 64-bit) request. -/
def archCompatible (declared requested : Arch) : Bool :=
  match declared, requested with
  | .archBoth, _ => true
  | .arch32, .arch32 => true
  | .arch64, .arch64 => true
  | _, _ => false

/-- Modelled from the spec: `CheckPassthroughManifestHal` — the isolated
bitness-compatibility check for a passthrough HAL entry against the
requested arch. -/
def checkPassthroughManifestHal (entry : CapabilityEntry) (arch : Arch) : Bool :=
  archCompatible entry.arch arch

/-- Modelled from the spec: `CheckManifestHal` — true iff the entry's
supported-interfaces set contains the interface name and, only when the
entry's transport is passthrough, the entry's bitness is compatible with the
requested arch; binderized entries ignore the arch entirely. -/
def checkManifestHal (entry : CapabilityEntry) (interfaceName : String)
    (arch : Arch) : Bool :=
  decide (interfaceName ∈ entry.interfaces) &&
    (match entry.transport with
     | .binderized => true
     | .passthrough => checkPassthroughManifestHal entry arch)

/-- Modelled from the spec: `GetTestInstances` — with a matrix-side and a
manifest-side optional instance set, return the intersection when both are
present, the one present set unmodified when exactly one is present, and the
empty set when neither is present. -/
def getTestInstances (matrixInstances manifestInstances : Option (Finset String)) :
    Finset String :=
  match matrixInstances, manifestInstances with
  | some m, some n => m ∩ n
  | some m, none => m
  | none, some n => n
  | none, none => ∅

/-- Whether a requirement entry matches a query: same package and interface
name, and the supplied version satisfies the entry's version range. -/
def requirementMatches (entry : RequirementEntry) (pkg : String) (v : Version)
    (interfaceName : String) : Bool :=
  entry.package == pkg && entry.interfaceName == interfaceName &&
    versionCompatible v entry.minVersion

/-- Whether a capability entry matches a query: same package, the declared
version is compatible with the requested one (same major, declared minor at
least the requested minor), the entry supports the interface, and — when
passthrough — the declared bitness is compatible with the requested arch. -/
def capabilityMatches (entry : CapabilityEntry) (pkg : String) (v : Version)
    (interfaceName : String) (arch : Arch) : Bool :=
  entry.package == pkg && versionCompatible entry.version v &&
    checkManifestHal entry interfaceName arch

/-- Modelled from the spec: the requirement-matrix lookup — find a
`RequirementEntry` matching package, interface, and whose version range is
satisfied by the supplied version. -/
def findRequirement (matrix : List RequirementEntry) (pkg : String)
    (v : Version) (interfaceName : String) : Option RequirementEntry :=
  matrix.find? (fun e => requirementMatches e pkg v interfaceName)

/-- Modelled from the spec: the manifest lookup — find a capability entry
declaring the given (package, version, interface), with compatible bitness
when passthrough. The spec leaves the multi-entry policy open; the first
fully matching entry is taken. -/
def findCapability (manifest : List CapabilityEntry) (pkg : String)
    (v : Version) (interfaceName : String) (arch : Arch) : Option CapabilityEntry :=
  manifest.find? (fun e => capabilityMatches e pkg v interfaceName arch)

/-- The decision engine: read-only views of the framework compatibility
matrix, the framework manifest, and the device manifest
(`VtsTestabilityChecker`). -/
structure VtsTestabilityChecker where
  framework_comp_matrix : List RequirementEntry
  framework_hal_manifest : List CapabilityEntry
  device_hal_manifest : List CapabilityEntry
deriving DecidableEq

/-- The constructor of `VtsTestabilityChecker`: each of the three document
pointers is checked against null (`CHECK(...)` aborts the process on a null
argument, modelled as `none`); a checker instance exists only when all three
are non-null. -/
def mkVtsTestabilityChecker (framework_comp_matrix : Option (List RequirementEntry))
    (framework_hal_manifest : Option (List CapabilityEntry))
    (device_hal_manifest : Option (List CapabilityEntry)) :
    Option VtsTestabilityChecker :=
  match framework_comp_matrix, framework_hal_manifest, device_hal_manifest with
  | some m, some f, some d => some ⟨m, f, d⟩
  | _, _, _ => none

/-- Modelled from the spec: `CheckVendorManifestHal` — whether the device
manifest declares the given HAL (with compatible bitness when passthrough);
on success the device entry's instances are returned. -/
def checkVendorManifestHal (c : VtsTestabilityChecker) (pkg : String)
    (v : Version) (interfaceName : String) (arch : Arch) :
    Bool × Finset String :=
  match findCapability c.device_hal_manifest pkg v interfaceName arch with
  | some entry => (true, getTestInstances none (some entry.instances))
  | none => (false, ∅)

/-- Modelled from the spec: `CheckFrameworkManifestHal` — whether the
framework manifest declares the given HAL (with compatible bitness when
passthrough); on success the framework entry's instances are returned. -/
def checkFrameworkManifestHal (c : VtsTestabilityChecker) (pkg : String)
    (v : Version) (interfaceName : String) (arch : Arch) :
    Bool × Finset String :=
  match findCapability c.framework_hal_manifest pkg v interfaceName arch with
  | some entry => (true, getTestInstances none (some entry.instances))
  | none => (false, ∅)

/-- Modelled from the spec: `CheckFrameworkCompatibleHal` — look up a
matching requirement entry; if none, the test must not run. If the entry is
required, the test runs: instances are resolved against the device
manifest's matching capability entry, or empty when the device does not
declare the HAL. If the entry is optional, the test runs only when the
device manifest declares the HAL, with instances resolved the same way. -/
def checkFrameworkCompatibleHal (c : VtsTestabilityChecker) (pkg : String)
    (v : Version) (interfaceName : String) (arch : Arch) :
    Bool × Finset String :=
  match findRequirement c.framework_comp_matrix pkg v interfaceName with
  | none => (false, ∅)
  | some req =>
    match findCapability c.device_hal_manifest pkg v interfaceName arch with
    | some entry =>
        (true, getTestInstances (some req.instances) (some entry.instances))
    | none =>
        if req.optionalFlag then (false, ∅) else (true, ∅)

/-- Modelled from the spec: `CheckHalForComplianceTest` — the compliance
query is the requirement-driven check. -/
def checkHalForComplianceTest (c : VtsTestabilityChecker) (pkg : String)
    (v : Version) (interfaceName : String) (arch : Arch) :
    Bool × Finset String :=
  checkFrameworkCompatibleHal c pkg v interfaceName arch

/-- Modelled from the spec: `CheckHalForNonComplianceTest` — try the device
manifest first; when it matches, return its result; otherwise fall back to
the framework manifest. -/
def checkHalForNonComplianceTest (c : VtsTestabilityChecker) (pkg : String)
    (v : Version) (interfaceName : String) (arch : Arch) :
    Bool × Finset String :=
  let vendor := checkVendorManifestHal c pkg v interfaceName arch
  if vendor.fst then vendor
  else checkFrameworkManifestHal c pkg v interfaceName arch

end VtsSpec

namespace VtsFuzzerBinder

/-- The status code of a parcel read (`status_t`). -/
inductive StatusT where
  | ok
  | notEnoughData
deriving DecidableEq, Repr

/-- `Parcel::readInt32(&res)` on a reply parcel, modelled as the list of
32-bit words remaining to be read: on success the next word is written into
`res` and the status is OK; on failure `res` keeps its previous contents and
an error status is returned. -/
def parcelReadInt32 (reply : List Int) (res : Int) : StatusT × Int :=
  match reply with
  | [] => (StatusT.notEnoughData, res)
  | v :: _ => (StatusT.ok, v)

/-- `BpVtsFuzzer::LoadHal` reply handling (the transaction itself is the
remote's concern; the reply parcel is the input here): `res` starts
uninitialized (parameter `uninit`), `reply.readInt32(&res)` is performed,
its status is bound but never consulted, and `res` is returned. -/
def LoadHal (reply : List Int) (uninit : Int) : Int :=
  let r := parcelReadInt32 reply uninit
  r.snd

/-- `BpVtsFuzzer::Status` reply handling: identical to `LoadHal` — the read
status is bound and discarded, `res` is returned. -/
def Status (reply : List Int) (uninit : Int) : Int :=
  let r := parcelReadInt32 reply uninit
  r.snd

/-- `BpVtsFuzzer::Call` reply handling: identical to `LoadHal` — the read
status is bound and discarded, `res` is returned. -/
def Call (reply : List Int) (uninit : Int) : Int :=
  let r := parcelReadInt32 reply uninit
  r.snd

end VtsFuzzerBinder

namespace VtsSpec

/-- A sample required requirement entry, for concrete evaluation. -/
def sampleRequiredEntry : RequirementEntry :=
  ⟨"vendor.foo", ⟨1, 0⟩, "IFoo", false, {"default"}⟩

/-- A sample optional requirement entry, for concrete evaluation. -/
def sampleOptionalEntry : RequirementEntry :=
  ⟨"vendor.bar", ⟨1, 0⟩, "IBar", true, {"default"}⟩

/-- A sample binderized device capability entry, for concrete evaluation. -/
def sampleDeviceEntry : CapabilityEntry :=
  ⟨"vendor.bar", ⟨1, 2⟩, Transport.binderized, {"IBar"}, {"default"}, Arch.archBoth⟩

/-- A sample passthrough 64-bit-only capability entry, for concrete
evaluation. -/
def samplePassthroughEntry : CapabilityEntry :=
  ⟨"vendor.baz", ⟨2, 0⟩, Transport.passthrough, {"IBaz"}, {"default"}, Arch.arch64⟩

/-- A checker whose matrix holds one required entry and whose manifests are
empty. -/
def sampleChecker1 : VtsTestabilityChecker :=
  ⟨[sampleRequiredEntry], [], []⟩

/-- A checker whose matrix holds one optional entry and whose device
manifest declares the matching HAL. -/
def sampleChecker2 : VtsTestabilityChecker :=
  ⟨[sampleOptionalEntry], [], [sampleDeviceEntry]⟩

/-- A checker over three empty documents. -/
def sampleEmptyChecker : VtsTestabilityChecker :=
  ⟨[], [], []⟩

theorem checkManifestHal_eq_true_iff (e : CapabilityEntry)
    (interfaceName : String) (arch : Arch) :
    checkManifestHal e interfaceName arch = true ↔
      (interfaceName ∈ e.interfaces ∧
        (e.transport = Transport.passthrough → archCompatible e.arch arch = true)) := by
  obtain ⟨pk, ver, tr, ifs, ins, ar⟩ := e
  cases tr <;>
    simp [checkManifestHal, checkPassthroughManifestHal, and_comm]

theorem capabilityMatches_eq_true_iff (e : CapabilityEntry) (pkg : String)
    (v : Version) (interfaceName : String) (arch : Arch) :
    capabilityMatches e pkg v interfaceName arch = true ↔
      (e.package = pkg ∧ versionCompatible e.version v = true ∧
        interfaceName ∈ e.interfaces ∧
        (e.transport = Transport.passthrough → archCompatible e.arch arch = true)) := by
  simp [capabilityMatches, checkManifestHal_eq_true_iff, and_assoc]

theorem findCapability_eq_none_iff (manifest : List CapabilityEntry)
    (pkg : String) (v : Version) (interfaceName : String) (arch : Arch) :
    findCapability manifest pkg v interfaceName arch = none ↔
      ∀ e ∈ manifest, ¬(e.package = pkg ∧ versionCompatible e.version v = true ∧
        interfaceName ∈ e.interfaces ∧
        (e.transport = Transport.passthrough → archCompatible e.arch arch = true)) := by
  unfold findCapability
  rw [List.find?_eq_none]
  simp only [capabilityMatches_eq_true_iff]

theorem findCapability_isSome_iff (manifest : List CapabilityEntry)
    (pkg : String) (v : Version) (interfaceName : String) (arch : Arch) :
    (findCapability manifest pkg v interfaceName arch).isSome ↔
      ∃ e ∈ manifest, e.package = pkg ∧ versionCompatible e.version v = true ∧
        interfaceName ∈ e.interfaces ∧
        (e.transport = Transport.passthrough → archCompatible e.arch arch = true) := by
  unfold findCapability
  rw [List.find?_isSome]
  simp only [capabilityMatches_eq_true_iff]

/-- C1: when the framework compatibility matrix lookup finds a matching
requirement entry marked required, `checkHalForComplianceTest` returns true;
in particular, when the device manifest has no matching capability entry the
result is true with an empty instance set. -/
theorem checkHalForComplianceTest_required (c : VtsTestabilityChecker)
    (pkg : String) (v : Version) (interfaceName : String) (arch : Arch)
    (req : RequirementEntry)
    (hreq : findRequirement c.framework_comp_matrix pkg v interfaceName = some req)
    (hrequired : req.optionalFlag = false) :
    (checkHalForComplianceTest c pkg v interfaceName arch).fst = true ∧
      (findCapability c.device_hal_manifest pkg v interfaceName arch = none →
        checkHalForComplianceTest c pkg v interfaceName arch = (true, ∅)) := by
  unfold checkHalForComplianceTest checkFrameworkCompatibleHal
  rw [hreq]
  cases hcap : findCapability c.device_hal_manifest pkg v interfaceName arch with
  | some entry => simp
  | none => simp [hrequired]

/-- C1 witness: a required entry with an empty device manifest yields a true
decision with an empty instance set. -/
theorem checkHalForComplianceTest_required_witness :
    checkHalForComplianceTest sampleChecker1 "vendor.foo" ⟨1, 2⟩ "IFoo" Arch.arch64 =
      (true, ∅) :=
  (checkHalForComplianceTest_required sampleChecker1 "vendor.foo" ⟨1, 2⟩ "IFoo"
      Arch.arch64 sampleRequiredEntry (by decide) (by decide)).2 (by decide)

/-- C2: when the matching requirement entry is optional,
`checkHalForComplianceTest` returns true iff the device manifest declares a
capability entry matching the package, a compatible version, the interface,
and — when passthrough — a bitness compatible with the requested arch. -/
theorem checkHalForComplianceTest_optional_iff (c : VtsTestabilityChecker)
    (pkg : String) (v : Version) (interfaceName : String) (arch : Arch)
    (req : RequirementEntry)
    (hreq : findRequirement c.framework_comp_matrix pkg v interfaceName = some req)
    (hopt : req.optionalFlag = true) :
    (checkHalForComplianceTest c pkg v interfaceName arch).fst = true ↔
      ∃ e ∈ c.device_hal_manifest, e.package = pkg ∧
        versionCompatible e.version v = true ∧ interfaceName ∈ e.interfaces ∧
        (e.transport = Transport.passthrough → archCompatible e.arch arch = true) := by
  rw [← findCapability_isSome_iff]
  unfold checkHalForComplianceTest checkFrameworkCompatibleHal
  rw [hreq]
  cases hcap : findCapability c.device_hal_manifest pkg v interfaceName arch with
  | some entry => simp
  | none => simp [hopt]

/-- C2 witness: the optional-entry iff at a concrete checker whose device
manifest declares the HAL. -/
theorem checkHalForComplianceTest_optional_iff_witness :
    (checkHalForComplianceTest sampleChecker2 "vendor.bar" ⟨1, 0⟩ "IBar" Arch.arch32).fst = true ↔
      ∃ e ∈ sampleChecker2.device_hal_manifest, e.package = "vendor.bar" ∧
        versionCompatible e.version ⟨1, 0⟩ = true ∧ "IBar" ∈ e.interfaces ∧
        (e.transport = Transport.passthrough →
          archCompatible e.arch Arch.arch32 = true) :=
  checkHalForComplianceTest_optional_iff sampleChecker2 "vendor.bar" ⟨1, 0⟩ "IBar"
    Arch.arch32 sampleOptionalEntry (by decide) (by decide)

/-- C3: when no entry of the framework compatibility matrix matches the
query (same package and interface, version range satisfied),
`checkHalForComplianceTest` returns false with an empty instance set. -/
theorem checkHalForComplianceTest_no_requirement (c : VtsTestabilityChecker)
    (pkg : String) (v : Version) (interfaceName : String) (arch : Arch)
    (hnone : ∀ e ∈ c.framework_comp_matrix,
      requirementMatches e pkg v interfaceName = false) :
    checkHalForComplianceTest c pkg v interfaceName arch = (false, ∅) := by
  have h : findRequirement c.framework_comp_matrix pkg v interfaceName = none := by
    unfold findRequirement
    rw [List.find?_eq_none]
    intro e he
    simp [hnone e he]
  unfold checkHalForComplianceTest checkFrameworkCompatibleHal
  rw [h]

/-- C3 witness: against an empty matrix the compliance query denies with an
empty instance set. -/
theorem checkHalForComplianceTest_no_requirement_witness :
    checkHalForComplianceTest sampleEmptyChecker "vendor.foo" ⟨1, 0⟩ "IFoo"
      Arch.arch32 = (false, ∅) :=
  checkHalForComplianceTest_no_requirement sampleEmptyChecker "vendor.foo" ⟨1, 0⟩
    "IFoo" Arch.arch32 (by simp [sampleEmptyChecker])

/-- C4: `checkHalForNonComplianceTest` succeeds iff the device manifest or
the framework manifest declares a matching capability entry; the device
manifest is consulted first and, when it matches, its entry's instances are
returned; when neither matches, the result is false with an empty set. -/
theorem checkHalForNonComplianceTest_spec (c : VtsTestabilityChecker)
    (pkg : String) (v : Version) (interfaceName : String) (arch : Arch) :
    ((checkHalForNonComplianceTest c pkg v interfaceName arch).fst = true ↔
      ((∃ e ∈ c.device_hal_manifest, e.package = pkg ∧
          versionCompatible e.version v = true ∧ interfaceName ∈ e.interfaces ∧
          (e.transport = Transport.passthrough → archCompatible e.arch arch = true)) ∨
        (∃ e ∈ c.framework_hal_manifest, e.package = pkg ∧
          versionCompatible e.version v = true ∧ interfaceName ∈ e.interfaces ∧
          (e.transport = Transport.passthrough → archCompatible e.arch arch = true)))) ∧
    (∀ entry, findCapability c.device_hal_manifest pkg v interfaceName arch = some entry →
      checkHalForNonComplianceTest c pkg v interfaceName arch = (true, entry.instances)) ∧
    (findCapability c.device_hal_manifest pkg v interfaceName arch = none →
      findCapability c.framework_hal_manifest pkg v interfaceName arch = none →
      checkHalForNonComplianceTest c pkg v interfaceName arch = (false, ∅)) := by
  rw [← findCapability_isSome_iff c.device_hal_manifest pkg v interfaceName arch,
    ← findCapability_isSome_iff c.framework_hal_manifest pkg v interfaceName arch]
  unfold checkHalForNonComplianceTest checkVendorManifestHal checkFrameworkManifestHal
  cases hdev : findCapability c.device_hal_manifest pkg v interfaceName arch with
  | some e1 => simp [getTestInstances]
  | none =>
    cases hfw : findCapability c.framework_hal_manifest pkg v interfaceName arch with
    | some e2 => simp [getTestInstances]
    | none => simp

/-- C4 witness: with a matching device entry the non-compliance query
returns true with the device entry's instances. -/
theorem checkHalForNonComplianceTest_spec_witness :
    checkHalForNonComplianceTest sampleChecker2 "vendor.bar" ⟨1, 0⟩ "IBar"
      Arch.arch32 = (true, {"default"}) :=
  (checkHalForNonComplianceTest_spec sampleChecker2 "vendor.bar" ⟨1, 0⟩ "IBar"
      Arch.arch32).2.1 sampleDeviceEntry (by decide)

/-- C5: `getTestInstances` returns the set intersection when both sides are
present, the one present set unmodified when exactly one is present, and the
empty set otherwise; concretely, matrix instances of a and b against
manifest instances of b and c yield the singleton b. -/
theorem getTestInstances_spec (m n : Finset String) :
    getTestInstances (some m) (some n) = m ∩ n ∧
    getTestInstances (some m) none = m ∧
    getTestInstances none (some n) = n ∧
    getTestInstances none none = ∅ ∧
    getTestInstances (some {"a", "b"}) (some {"b", "c"}) = {"b"} := by
  refine ⟨rfl, rfl, rfl, rfl, by decide⟩

/-- C6: `checkManifestHal` holds iff the entry supports the interface and,
only when passthrough, its bitness is compatible with the requested arch;
binderized entries are arch-independent; a 64-bit-only entry satisfies a
64-bit request and fails a 32-bit one, an entry declared both satisfies
either. -/
theorem checkManifestHal_spec (e : CapabilityEntry) (interfaceName : String)
    (arch : Arch) :
    (checkManifestHal e interfaceName arch = true ↔
      (interfaceName ∈ e.interfaces ∧
        (e.transport = Transport.passthrough → archCompatible e.arch arch = true))) ∧
    (e.transport = Transport.binderized →
      ∀ a a', checkManifestHal e interfaceName a = checkManifestHal e interfaceName a') ∧
    (e.arch = Arch.arch64 →
      checkPassthroughManifestHal e Arch.arch64 = true ∧
        checkPassthroughManifestHal e Arch.arch32 = false) ∧
    (e.arch = Arch.archBoth →
      checkPassthroughManifestHal e Arch.arch32 = true ∧
        checkPassthroughManifestHal e Arch.arch64 = true) := by
  refine ⟨checkManifestHal_eq_true_iff e interfaceName arch, ?_, ?_, ?_⟩
  · intro hb a a'
    unfold checkManifestHal
    rw [hb]
  · intro h64
    simp [checkPassthroughManifestHal, archCompatible, h64]
  · intro hboth
    simp [checkPassthroughManifestHal, archCompatible, hboth]

/-- C6 witness: arch-independence of a concrete binderized entry and the
64-bit-only passthrough bitness outcomes at a concrete entry. -/
theorem checkManifestHal_spec_witness :
    (checkManifestHal sampleDeviceEntry "IBar" Arch.arch32 =
      checkManifestHal sampleDeviceEntry "IBar" Arch.arch64) ∧
    checkPassthroughManifestHal samplePassthroughEntry Arch.arch64 = true ∧
    checkPassthroughManifestHal samplePassthroughEntry Arch.arch32 = false :=
  ⟨(checkManifestHal_spec sampleDeviceEntry "IBar" Arch.arch32).2.1 rfl
      Arch.arch32 Arch.arch64,
    (checkManifestHal_spec samplePassthroughEntry "IBaz" Arch.arch64).2.2.1 rfl⟩

/-- C7: a declared version (M, m) satisfies a required minimum (Mr, mr) iff
M equals Mr and m is at least mr; concretely (2,3) satisfies minimum (2,1)
but neither (2,5) nor (3,0). -/
theorem versionCompatible_spec (M m Mr mr : Nat) :
    (versionCompatible ⟨M, m⟩ ⟨Mr, mr⟩ = true ↔ (M = Mr ∧ mr ≤ m)) ∧
    versionCompatible ⟨2, 3⟩ ⟨2, 1⟩ = true ∧
    versionCompatible ⟨2, 3⟩ ⟨2, 5⟩ = false ∧
    versionCompatible ⟨2, 3⟩ ⟨3, 0⟩ = false := by
  refine ⟨?_, by decide, by decide, by decide⟩
  simp [versionCompatible]

/-- C8: a checker instance exists only when all three documents are
non-null — every constructed instance carries exactly the three supplied
documents, and a null argument in any position makes construction fail. -/
theorem mkVtsTestabilityChecker_spec :
    (∀ m f d c, mkVtsTestabilityChecker m f d = some c →
      m = some c.framework_comp_matrix ∧ f = some c.framework_hal_manifest ∧
        d = some c.device_hal_manifest) ∧
    (∀ f d, mkVtsTestabilityChecker none f d = none) ∧
    (∀ m d, mkVtsTestabilityChecker m none d = none) ∧
    (∀ m f, mkVtsTestabilityChecker m f none = none) := by
  refine ⟨?_, ?_, ?_, ?_⟩
  · intro m f d c h
    cases m with
    | none => exact absurd h (by simp [mkVtsTestabilityChecker])
    | some mv =>
      cases f with
      | none => exact absurd h (by simp [mkVtsTestabilityChecker])
      | some fv =>
        cases d with
        | none => exact absurd h (by simp [mkVtsTestabilityChecker])
        | some dv =>
          have hc : VtsTestabilityChecker.mk mv fv dv = c := by
            simpa [mkVtsTestabilityChecker] using h
          rw [← hc]
          exact ⟨rfl, rfl, rfl⟩
  · intro f d
    rfl
  · intro m d
    cases m <;> rfl
  · intro m f
    cases m <;> cases f <;> rfl

/-- C8 witness: a successfully constructed checker carries the three
supplied documents. -/
theorem mkVtsTestabilityChecker_spec_witness :
    some ([] : List RequirementEntry) = some sampleEmptyChecker.framework_comp_matrix ∧
      some ([] : List CapabilityEntry) = some sampleEmptyChecker.framework_hal_manifest ∧
      some ([] : List CapabilityEntry) = some sampleEmptyChecker.device_hal_manifest :=
  mkVtsTestabilityChecker_spec.1 (some []) (some []) (some []) sampleEmptyChecker rfl

/-- C9: whenever either public query returns false, the output instance set
is empty. -/
theorem false_result_empty_instances (c : VtsTestabilityChecker) (pkg : String)
    (v : Version) (interfaceName : String) (arch : Arch) :
    ((checkHalForComplianceTest c pkg v interfaceName arch).fst = false →
      (checkHalForComplianceTest c pkg v interfaceName arch).snd = ∅) ∧
    ((checkHalForNonComplianceTest c pkg v interfaceName arch).fst = false →
      (checkHalForNonComplianceTest c pkg v interfaceName arch).snd = ∅) := by
  refine ⟨?_, ?_⟩
  · unfold checkHalForComplianceTest checkFrameworkCompatibleHal
    cases hreq : findRequirement c.framework_comp_matrix pkg v interfaceName with
    | none => simp
    | some req =>
      cases hcap : findCapability c.device_hal_manifest pkg v interfaceName arch with
      | some entry => simp
      | none => cases hflag : req.optionalFlag <;> simp [hflag]
  · unfold checkHalForNonComplianceTest checkVendorManifestHal checkFrameworkManifestHal
    cases hdev : findCapability c.device_hal_manifest pkg v interfaceName arch with
    | some e1 => simp
    | none =>
      cases hfw : findCapability c.framework_hal_manifest pkg v interfaceName arch with
      | some e2 => simp
      | none => simp

/-- C9 witness: the false-implies-empty invariant evaluated on the empty
checker. -/
theorem false_result_empty_instances_witness :
    (checkHalForComplianceTest sampleEmptyChecker "vendor.foo" ⟨1, 0⟩ "IFoo"
        Arch.arch32).snd = ∅ ∧
      (checkHalForNonComplianceTest sampleEmptyChecker "vendor.foo" ⟨1, 0⟩ "IFoo"
        Arch.arch32).snd = ∅ :=
  ⟨(false_result_empty_instances sampleEmptyChecker "vendor.foo" ⟨1, 0⟩ "IFoo"
      Arch.arch32).1 (by decide),
    (false_result_empty_instances sampleEmptyChecker "vendor.foo" ⟨1, 0⟩ "IFoo"
      Arch.arch32).2 (by decide)⟩

end VtsSpec

/-- C10: each of the three proxy reads returns the int32 read from the reply
parcel and discards the status of that read: a successful read yields the
word read, while a failed or empty read is never signalled — the returned
value is then the uninitialized residue, not determined by the reply's
contents, even though the read itself reported an error status. -/
theorem bpVtsFuzzer_reply_read_discards_status (v u : Int) (rest : List Int) :
    VtsFuzzerBinder.LoadHal (v :: rest) u = v ∧
    VtsFuzzerBinder.Status (v :: rest) u = v ∧
    VtsFuzzerBinder.Call (v :: rest) u = v ∧
    VtsFuzzerBinder.LoadHal [] u = u ∧
    VtsFuzzerBinder.Status [] u = u ∧
    VtsFuzzerBinder.Call [] u = u ∧
    (VtsFuzzerBinder.parcelReadInt32 [] u).fst =
      VtsFuzzerBinder.StatusT.notEnoughData :=
  ⟨rfl, rfl, rfl, rfl, rfl, rfl, rfl⟩
